import Mathlib

/-!
Verification of the `nsaudit` program (src/nsaudit.go) against its
specification. The Go program is shallowly embedded: DNS exchanges and the
system resolver are passed in as explicit environment functions, the global
`nsCache` map becomes explicit association-list state, Go `nil` interface
values (uninitialised `mapset.Set` fields, unset `error`) become `Option`
`none`, and a Go runtime panic is modelled as an `Option.none` result.
-/

set_option autoImplicit false

namespace NSAudit

instance {ε α : Type} [DecidableEq ε] [DecidableEq α] :
    DecidableEq (Except ε α) := fun x y =>
  match x, y with
  | .ok a, .ok b =>
    if h : a = b then .isTrue (by rw [h])
    else .isFalse (fun hc => h (Except.ok.inj hc))
  | .error a, .error b =>
    if h : a = b then .isTrue (by rw [h])
    else .isFalse (fun hc => h (Except.error.inj hc))
  | .ok _, .error _ => .isFalse (fun hc => Except.noConfusion hc)
  | .error _, .ok _ => .isFalse (fun hc => Except.noConfusion hc)

/-- A DNS resource record as the code sees it: either a `*dns.NS` record
carrying a name-server host, or any other record type (ignored by the
extraction loop in `queryNS`, lines 242-246). -/
inductive RR where
  | nsRec (host : String)
  | other
deriving DecidableEq

/-- Whether a record is an NS-type record (the `a.(*dns.NS)` type check). -/
def RR.isNS : RR → Bool
  | .nsRec _ => true
  | .other => false

/-- The parts of a `dns.Msg` reply the code reads: the response code, the
authority section (`r.Ns`) and the answer section (`r.Answer`). -/
structure DnsMsg where
  rcode : Nat
  ns : List RR
  answer : List RR
deriving DecidableEq

/-- `dns.RcodeSuccess` is 0. -/
def rcodeSuccess : Nat := 0

/-- `strings.Split(s, ".")` on the character list of a domain: split on the
dot separator, keeping empty fields (so a trailing dot yields a final empty
field), as Go does. -/
def splitDot : List Char → List (List Char)
  | [] => [[]]
  | c :: rest =>
    if c = '.' then [] :: splitDot rest
    else
      match splitDot rest with
      | [] => [[c]]
      | g :: gs => (c :: g) :: gs

/-- `strings.Join(parts, ".")`: interleave the fields with dots. -/
def joinDot : List (List Char) → List Char
  | [] => []
  | [g] => g
  | g :: gs => g ++ '.' :: joinDot gs

/-- The parent-zone derivation in `domainParent` (lines 270-271):
`strings.Join(strings.Split(domain, ".")[1:], ".")`. -/
def parentOf (domain : String) : String :=
  String.mk (joinDot ((splitDot domain.toList).drop 1))

/-- The Go slice expression `domain[len(domain):]` from `checkDomain`
line 193: the suffix of the string starting at index `len(domain)`, which is
always the empty string. -/
def goTailSlice (domain : String) : String :=
  String.mk (domain.toList.drop domain.toList.length)

/-- The normalisation step of `checkDomain` (lines 193-195): append a dot
whenever `domain[len(domain):] != "."`. -/
def normalizeCheck (domain : String) : String :=
  if goTailSlice domain ≠ "." then domain ++ "." else domain

/-- The `nsCache` global map, made explicit: an association list from
parent-zone name to its first discovered name server. -/
abbrev Cache : Type := List (String × String)

/-- Map lookup `nsCache[parent]`. -/
def cacheGet : Cache → String → Option String
  | [], _ => none
  | (k, v) :: rest, p => if k = p then some v else cacheGet rest p

/-- Map store `nsCache[parent] = parentNS`. -/
def cachePut (c : Cache) (p v : String) : Cache := (p, v) :: c

/-- The external world the program talks to: `net.LookupNS` (host list per
name, or a resolver error) and `dns.Client.Exchange` (reply or transport
error, per queried domain, server, and attempt number). -/
structure Env where
  lookupNS : String → Except String (List String)
  exchange : String → String → Nat → Except String DnsMsg

/-- Rendering of the final `err` value by `fmt.Sprintf` with verb `%s` in
`query` line 264: a nil error prints as Go's nil-verb placeholder. -/
def errStr : Option String → String
  | some e => e
  | none => "%!s(<nil>)"

/-- The failure message built by `query` at line 264 after the retry loop is
exhausted. It names the domain, the server, and the last error. -/
def queryFailMsg (domain server : String) (lastErr : Option String) : String :=
  "Too many retries looking up NS records for domain " ++ domain ++
    " to server " ++ server ++ ", last error: " ++ errStr lastErr

/-- The retry loop of `query` (lines 256-262): attempt `i`, with `remaining`
attempts left (the loop runs while `i <= *argsRE`); the first successful
exchange is returned, otherwise the last error feeds the failure message. -/
def queryFuel (ex : Nat → Except String DnsMsg) (domain server : String) :
    Nat → Nat → Option String → Except String DnsMsg
  | _, 0, lastErr => .error (queryFailMsg domain server lastErr)
  | i, remaining + 1, _ =>
    match ex i with
    | .ok r => .ok r
    | .error e => queryFuel ex domain server (i + 1) remaining (some e)

/-- `query(domain, parentNS)` (lines 252-266) with the retry count `*argsRE`
explicit and the exchange for this (domain, server) pair abstracted. -/
def query (ex : Nat → Except String DnsMsg) (retries : Nat)
    (domain server : String) : Except String DnsMsg :=
  queryFuel ex domain server 1 retries none

/-- The extraction loop of `queryNS` (lines 242-246): collect the `Ns`
target of every `*dns.NS` record of the chosen section into the set. -/
def extractNS : List RR → Finset String
  | [] => ∅
  | .nsRec h :: rest => insert h (extractNS rest)
  | .other :: rest => extractNS rest

/-- `queryNS(domain, nameServer, checkNS)` (lines 220-250): run `query`,
fail on a non-success response code, then extract NS records from the
authority section when `checkNS` and from the answer section otherwise. -/
def queryNS (env : Env) (retries : Nat) (domain nameServer : String)
    (checkNS : Bool) : Except String (Finset String) :=
  match query (env.exchange domain nameServer) retries domain nameServer with
  | .error e => .error e
  | .ok r =>
    if r.rcode ≠ rcodeSuccess then
      .error ("Bad response for domain:" ++ domain)
    else
      .ok (extractNS (if checkNS then r.ns else r.answer))

/-- The successful output of `domainParent`: the parent-zone name, the
parent zone's name server, and the domain's own zone name server. -/
structure LocateOk where
  parent : String
  parentNS : String
  zoneNS : String
deriving DecidableEq

/-- `domainParent(domain)` (lines 268-305) with the cache state explicit.
The third component counts the `net.LookupNS(parent)` calls performed (0 on
a cache hit or an early zone-lookup failure, 1 on a cache miss). -/
def domainParent (env : Env) (c : Cache) (domain : String) :
    Except String LocateOk × Cache × Nat :=
  let parent := parentOf domain
  match env.lookupNS domain with
  | .error e => (.error e, c, 0)
  | .ok zoneNSs =>
    match zoneNSs with
    | [] => (.error ("Could not find NS for domain " ++ domain), c, 0)
    | z :: _ =>
      match cacheGet c parent with
      | some pns => (.ok ⟨parent, pns, z⟩, c, 0)
      | none =>
        match env.lookupNS parent with
        | .error e => (.error e, c, 1)
        | .ok [] =>
          (.error ("Could not find NS for domains\x27s tld " ++ parent), c, 1)
        | .ok (p :: _) => (.ok ⟨parent, p, z⟩, cachePut c parent p, 1)

/-- The `DomainNS` struct (lines 23-28). The two `mapset.Set` fields are
interface values that start out nil; `none` models a nil set, `some` a set
built by `mapset.NewSet()`. `Error` is the struct's `error` field. -/
structure DomainNS where
  Domain : String
  Error : Option String
  RegistrarNS : Option (Finset String)
  ZoneNS : Option (Finset String)
deriving DecidableEq

/-- `checkDomain(domain)` (lines 189-218) with environment, retry count and
cache explicit. Returns the `DomainNS` result together with the function's
second return value `err`, and the updated cache. Note the source sets
`domainNS.Error` only on the `domainParent` failure path; a `queryNS`
failure returns with `err` set but `Error` left nil. -/
def checkDomain (env : Env) (retries : Nat) (c : Cache) (domain : String) :
    (DomainNS × Option String) × Cache :=
  let domain := normalizeCheck domain
  let dns0 : DomainNS :=
    { Domain := domain, Error := none, RegistrarNS := none, ZoneNS := none }
  match domainParent env c domain with
  | (.error e, c1, _) => (({ dns0 with Error := some e }, some e), c1)
  | (.ok loc, c1, _) =>
    match queryNS env retries domain loc.parentNS true with
    | .error e => ((dns0, some e), c1)
    | .ok reg =>
      match queryNS env retries domain loc.zoneNS false with
      | .error e => (({ dns0 with RegistrarNS := some reg }, some e), c1)
      | .ok zone =>
        (({ dns0 with RegistrarNS := some reg, ZoneNS := some zone },
          none), c1)

/-- One rendered line of `compareNS` output: the critical line for an
auditor error, the four difference lines each carrying the set they render,
and the `OK` line. -/
inductive IssueLine where
  | crit (e : String)
  | requiredNotRegistrar (s : Finset String)
  | registrarNotRequired (s : Finset String)
  | zoneNotRegistrar (s : Finset String)
  | registrarNotZone (s : Finset String)
  | ok
deriving DecidableEq

/-- `compareNS(requiredNS, domainNS)` (lines 146-187): the issue count and
the rendered lines (the constant header line is omitted). Calling
`Difference` on or with a nil `mapset.Set` interface value panics in Go;
that crash is modelled as `none`. -/
def compareNS (requiredNS : Finset String) (d : DomainNS) :
    Option (Nat × List IssueLine) :=
  match d.Error with
  | some e => some (1, [IssueLine.crit e])
  | none =>
    match d.RegistrarNS, d.ZoneNS with
    | some reg, some zone =>
      let d1 := requiredNS \ reg
      let d2 := reg \ requiredNS
      let d3 := zone \ reg
      let d4 := reg \ zone
      let n1 : Nat := if d1 = ∅ then 0 else 1
      let n2 : Nat := if d2 = ∅ then 0 else 1
      let n3 : Nat := if d3 = ∅ then 0 else 1
      let n4 : Nat := if d4 = ∅ then 0 else 1
      let total := n1 + n2 + n3 + n4
      let lines :=
        (if d1 = ∅ then [] else [IssueLine.requiredNotRegistrar d1]) ++
        (if d2 = ∅ then [] else [IssueLine.registrarNotRequired d2]) ++
        (if d3 = ∅ then [] else [IssueLine.zoneNotRegistrar d3]) ++
        (if d4 = ∅ then [] else [IssueLine.registrarNotZone d4]) ++
        (if total = 0 then [IssueLine.ok] else [])
      some (total, lines)
    | _, _ => none

/-- The pipeline state seen by the producer goroutine (lines 67-74) and one
worker goroutine (lines 82-98): the input lines the scanner has not yet
written to `inChan`, the buffered contents of `inChan`, the domains the
worker has taken for processing, and whether the worker has returned. -/
structure PipeState where
  toProduce : List String
  inQueue : List String
  processed : List String
  workerReturned : Bool
deriving DecidableEq

/-- One step of the producer goroutine: the scanner writes the next input
line into `inChan` (line 71). -/
def producerStep (s : PipeState) : PipeState :=
  match s.toProduce with
  | [] => s
  | d :: rest => { s with toProduce := rest, inQueue := s.inQueue ++ [d] }

/-- One iteration of the worker loop (lines 85-97): the `select` takes a
buffered domain from `inChan` when one is available; otherwise the
`default` case runs and the worker returns. `inChan` is never closed, so
there is no closed-channel case. -/
def workerStep (s : PipeState) : PipeState :=
  if s.workerReturned then s
  else
    match s.inQueue with
    | [] => { s with workerReturned := true }
    | d :: rest => { s with inQueue := rest, processed := s.processed ++ [d] }

/-- The `DialTimeout` in seconds of the `dns.Client` the code constructs for
attempt `i` of the retry loop (line 257): `time.Duration(*argsTO) *
time.Second`, the same configured value on every attempt. -/
def attemptTimeout (argsTO i : Nat) : Nat := argsTO

/-- The per-attempt timeouts (in seconds) a full run of the retry loop with
`retries` attempts would use, in attempt order. -/
def queryTimeouts (argsTO retries : Nat) : List Nat :=
  (List.range retries).map (fun k => attemptTimeout argsTO (k + 1))

/-- An operation on shared state: an access to the `nsCache` map, or the
acquisition/release of a mutual-exclusion lock. -/
inductive CacheOp where
  | read (p : String)
  | write (p host : String)
  | lock
  | unlock
deriving DecidableEq

/-- Whether every map access in the sequence happens while at least one
lock is held (the running count of acquired locks is positive). -/
def protectedOps : List CacheOp → Nat → Bool
  | [], _ => true
  | .lock :: rest, n => protectedOps rest (n + 1)
  | .unlock :: rest, n => protectedOps rest (n - 1)
  | .read _ :: rest, n => decide (0 < n) && protectedOps rest n
  | .write _ _ :: rest, n => decide (0 < n) && protectedOps rest n

/-- A sequence of operations is serialized when every cache access is
protected by a held lock, starting from no lock held. -/
def opsSerialized (ops : List CacheOp) : Bool :=
  protectedOps ops 0

/-- The operations `domainParent` performs on the shared `nsCache` map on a
cache miss: the read at line 284 and the write at line 302. The source
declares no mutex, so no lock operations surround them. -/
def domainParentCacheOpsMiss (p host : String) : List CacheOp :=
  [CacheOp.read p, CacheOp.write p host]

/-- The operations `domainParent` performs on `nsCache` on a cache hit: the
read at line 284 only, again with no lock operations. -/
def domainParentCacheOpsHit (p : String) : List CacheOp :=
  [CacheOp.read p]

/-- The percentage statistics of `main` (lines 140-141):
`float64(part)/float64(total)*100`. The source performs the division
unconditionally; when `total = 0` the IEEE-754 division is invalid
(`0/0 = NaN`, `n/0 = Inf`), modelled as `none`; otherwise the exact
rational percentage. -/
def statsPercent (part total : Nat) : Option ℚ :=
  if total = 0 then none else some ((part : ℚ) / (total : ℚ) * 100)

/-- An environment in which parent location succeeds for `example.com.` but
every DNS exchange fails: the registrar-view query exhausts its retries. -/
def envRegFail : Env where
  lookupNS := fun s =>
    if s = "example.com." then .ok ["zone.ns."]
    else if s = "com." then .ok ["gtld.ns."]
    else .error "no such host"
  exchange := fun _ _ _ => .error "connection refused"

/-- An environment for two domains sharing the parent `example.com.`: each
zone lookup succeeds, and the parent lookup succeeds. -/
def envC6 : Env where
  lookupNS := fun s =>
    if s = "a.example.com." then .ok ["z1.ns."]
    else if s = "b.example.com." then .ok ["z2.ns."]
    else if s = "example.com." then .ok ["p1.ns.", "p2.ns."]
    else .error "no such host"
  exchange := fun _ _ _ => .error "unused"

/-- An environment whose DNS exchange always succeeds with a success
response code whose authority and answer sections hold no NS records. -/
def envEmptyOk : Env where
  lookupNS := fun _ => .error "unused"
  exchange := fun _ _ _ => .ok ⟨0, [RR.other], []⟩

/-! ## Helper lemmas -/

theorem goTailSlice_eq_empty (d : String) : goTailSlice d = "" := by
  show String.mk (d.toList.drop d.toList.length) = ""
  rw [List.drop_length]

theorem extractNS_eq_empty (l : List RR) (h : ∀ a ∈ l, RR.isNS a = false) :
    extractNS l = ∅ := by
  induction l with
  | nil => rfl
  | cons a rest ih =>
    cases a with
    | nsRec hst =>
      have := h _ (List.mem_cons_self _ _)
      simp [RR.isNS] at this
    | other =>
      rw [extractNS]
      exact ih (fun a ha => h a (List.mem_cons_of_mem _ ha))

theorem indicatorOfEmpty (s : Finset String) :
    (if s = ∅ then 0 else 1) = (if s.Nonempty then 1 else 0 : Nat) := by
  by_cases h : s = ∅ <;> simp [h, Finset.nonempty_iff_ne_empty]

/-! ## Claim theorems -/

/-- C5 (code bug evaluation): `checkDomain`'s normalisation appends a dot
unconditionally, because the Go slice `domain[len(domain):]` is always the
empty string, never `"."`. On the already dot-terminated input
`"example.com."` the result ends in two dots instead of being left
unchanged with exactly one trailing dot. -/
theorem normalizeCheck_always_appends :
    (∀ d : String, normalizeCheck d = d ++ ".") ∧
    normalizeCheck "example.com." = "example.com.." := by
  constructor
  · intro d
    simp [normalizeCheck, goTailSlice_eq_empty]
  · decide

/-- C3 (code bug evaluation): scheduled before the producer has enqueued
anything, a worker's very first poll of the (transiently) empty input
channel hits the `select` default case and the worker returns for good,
while the producer still holds `"example.com"` unenqueued and nothing has
been processed — the input queue is never closed at all, so the worker did
not stop on a drained-and-closed queue. -/
theorem worker_exits_on_transient_empty_poll :
    workerStep ⟨["example.com"], [], [], false⟩ =
      ⟨["example.com"], [], [], true⟩ ∧
    (workerStep ⟨["example.com"], [], [], false⟩).workerReturned = true ∧
    (workerStep ⟨["example.com"], [], [], false⟩).toProduce ≠ [] ∧
    (workerStep ⟨["example.com"], [], [], false⟩).processed = [] := by
  decide

/-- C7 (counterexample): with base timeout 5 seconds, the second attempt's
timeout is not 2 × 5 and is not strictly greater than the first attempt's
timeout — the claimed increasing schedule `i × baseTimeout` does not hold. -/
theorem attemptTimeout_not_increasing :
    attemptTimeout 5 2 ≠ 2 * 5 ∧
    ¬ attemptTimeout 5 1 < attemptTimeout 5 2 := by
  decide

/-- C7 (amended): every attempt of the retry loop constructs its
`dns.Client` with the same fixed configured timeout, so a run with any
number of retries uses a constant per-attempt timeout list. -/
theorem attemptTimeout_fixed (argsTO retries i : Nat) :
    attemptTimeout argsTO i = argsTO ∧
    queryTimeouts argsTO retries = List.replicate retries argsTO := by
  refine ⟨rfl, ?_⟩
  simp [queryTimeouts, attemptTimeout, List.eq_replicate_iff]

/-- C8 (code bug evaluation): the cache accesses `domainParent` performs on
the shared global map `nsCache` — the read on its hit and miss paths and
the write on its miss path — happen with no lock ever held: no mutual
exclusion serializes concurrent access. -/
theorem nsCache_access_unserialized (p h : String) :
    opsSerialized (domainParentCacheOpsMiss p h) = false ∧
    opsSerialized (domainParentCacheOpsHit p) = false :=
  ⟨rfl, rfl⟩

/-- C9 (code bug evaluation): with zero processed domains the percentage
statistic is produced by an invalid division (0/0, IEEE NaN — modelled
`none`), not reported as 0%. -/
theorem statsPercent_zero_domains_invalid :
    statsPercent 0 0 = none ∧ statsPercent 0 0 ≠ some 0 := by
  decide

/-- Unfolding of `compareNS` on a result with no error and both sets
populated: the count is the sum of the four emptiness indicators and the
lines are the four difference lines plus `OK` when the count is zero. -/
theorem compareNS_some (req reg zone : Finset String) (dom : String) :
    compareNS req ⟨dom, none, some reg, some zone⟩ =
      some ((if req \ reg = ∅ then 0 else 1) + (if reg \ req = ∅ then 0 else 1) +
            (if zone \ reg = ∅ then 0 else 1) + (if reg \ zone = ∅ then 0 else 1),
        (if req \ reg = ∅ then [] else [IssueLine.requiredNotRegistrar (req \ reg)]) ++
        (if reg \ req = ∅ then [] else [IssueLine.registrarNotRequired (reg \ req)]) ++
        (if zone \ reg = ∅ then [] else [IssueLine.zoneNotRegistrar (zone \ reg)]) ++
        (if reg \ zone = ∅ then [] else [IssueLine.registrarNotZone (reg \ zone)]) ++
        (if (if req \ reg = ∅ then 0 else 1) + (if reg \ req = ∅ then 0 else 1) +
            (if zone \ reg = ∅ then 0 else 1) + (if reg \ zone = ∅ then 0 else 1) = 0
         then [IssueLine.ok] else [])) := rfl

/-- C1 (code bug evaluation): auditing `example.com` in an environment where
parent location succeeds but every DNS exchange fails, `checkDomain`
returns a non-nil `err` (the registrar-view query failed) yet hands back a
`DomainNS` whose `Error` field is nil and whose NS-set fields are both nil
— `main` forwards exactly this struct to the Comparator, so the result
satisfies neither arm of the claimed invariant. -/
theorem checkDomain_error_not_populated :
    (checkDomain envRegFail 3 [] "example.com").1.1.Error = none ∧
    (checkDomain envRegFail 3 [] "example.com").1.2.isSome = true ∧
    (checkDomain envRegFail 3 [] "example.com").1.1.RegistrarNS = none ∧
    (checkDomain envRegFail 3 [] "example.com").1.1.ZoneNS = none := by
  decide

/-- C2 (counterexample): a `DomainAuditResult` actually produced by the
auditor — `example.com` audited where the registrar-view query fails — has
no error set, and `compareNS` on it returns no issue count at all: the Go
code panics calling `Difference` on the nil registrar set (modelled
`none`), refuting the claim that compare returns a count in [0, 4] for
every result whose error is unset. -/
theorem compareNS_crashes_on_query_failure_result :
    (checkDomain envRegFail 3 [] "example.com").1.1.Error = none ∧
    compareNS ∅ (checkDomain envRegFail 3 [] "example.com").1.1 = none := by
  decide

/-- C2 (amended): for every required set and every result whose error is
set, compare returns exactly one critical issue with no set comparison
attempted; and for every result with no error and both NS sets populated,
compare returns a count equal to the sum of one per non-empty difference
(never the sizes), hence in [0, 4], and the count is zero exactly when the
single rendered line is `OK`. -/
theorem compareNS_issue_count (req reg zone : Finset String) (d : DomainNS)
    (e : String) :
    (d.Error = some e → compareNS req d = some (1, [IssueLine.crit e])) ∧
    (∃ n lines,
      compareNS req ⟨d.Domain, none, some reg, some zone⟩ = some (n, lines) ∧
      n = (if (req \ reg).Nonempty then 1 else 0) +
          (if (reg \ req).Nonempty then 1 else 0) +
          (if (zone \ reg).Nonempty then 1 else 0) +
          (if (reg \ zone).Nonempty then 1 else 0) ∧
      n ≤ 4 ∧
      (n = 0 ↔ lines = [IssueLine.ok])) := by
  constructor
  · intro h
    simp [compareNS, h]
  · refine ⟨_, _, compareNS_some req reg zone d.Domain, ?_, ?_, ?_⟩
    · rw [indicatorOfEmpty, indicatorOfEmpty, indicatorOfEmpty, indicatorOfEmpty]
    · split_ifs <;> norm_num
    · by_cases h1 : req \ reg = ∅ <;> by_cases h2 : reg \ req = ∅ <;>
        by_cases h3 : zone \ reg = ∅ <;> by_cases h4 : reg \ zone = ∅ <;>
        simp [h1, h2, h3, h4]

/-- C2 (witness): the amended theorem applied to a concrete errored result. -/
theorem compareNS_issue_count_witness :
    compareNS ∅ ⟨"example.com.", some "boom", none, none⟩ =
      some (1, [IssueLine.crit "boom"]) :=
  (compareNS_issue_count ∅ ∅ ∅ ⟨"example.com.", some "boom", none, none⟩
    "boom").1 rfl

/-- The retry loop returns the first successful exchange: if attempt `j`
(within the window of `n` attempts starting at `i`) succeeds and every
earlier attempt fails, the loop returns attempt `j`'s response. -/
theorem queryFuel_first_ok (ex : Nat → Except String DnsMsg) (d s : String) :
    ∀ (n i : Nat) (le : Option String) (j : Nat) (r : DnsMsg),
      i ≤ j → j < i + n → ex j = .ok r →
      (∀ k, i ≤ k → k < j → ∃ e, ex k = .error e) →
      queryFuel ex d s i n le = .ok r := by
  intro n
  induction n with
  | zero => intro i le j r hij hlt _ _; omega
  | succ n ih =>
    intro i le j r hij hlt hok hprev
    by_cases hji : j = i
    · subst hji
      simp [queryFuel, hok]
    · have hij' : i < j := lt_of_le_of_ne hij (Ne.symm hji)
      obtain ⟨e, he⟩ := hprev i (le_refl i) hij'
      rw [queryFuel, he]
      exact ih (i + 1) (some e) j r (by omega) (by omega) hok
        (fun k hk1 hk2 => hprev k (by omega) hk2)

/-- When every attempt in the window fails, the retry loop produces the
exhaustion error built from the last attempt's failure. -/
theorem queryFuel_all_fail (ex : Nat → Except String DnsMsg) (d s : String)
    (f : Nat → String) :
    ∀ (n i : Nat) (le : Option String),
      (∀ k, i ≤ k → k < i + n → ex k = .error (f k)) →
      queryFuel ex d s i n le =
        .error (queryFailMsg d s
          (if n = 0 then le else some (f (i + n - 1)))) := by
  intro n
  induction n with
  | zero => intro i le _; simp [queryFuel]
  | succ n ih =>
    intro i le hall
    have hi : ex i = .error (f i) := hall i (le_refl i) (by omega)
    have step : queryFuel ex d s i (n + 1) le
        = queryFuel ex d s (i + 1) n (some (f i)) := by
      rw [queryFuel, hi]
    rw [step,
      ih (i + 1) (some (f i)) (fun k hk1 hk2 => hall k (by omega) (by omega))]
    rcases Nat.eq_zero_or_pos n with hn | hn
    · subst hn; simp
    · have h1 : (if n = 0 then some (f i) else some (f (i + 1 + n - 1)))
          = some (f (i + 1 + n - 1)) := by
        rw [if_neg (by omega)]
      rw [h1]
      have h2 : i + 1 + n - 1 = i + (n + 1) - 1 := by omega
      rw [h2, if_neg (by omega)]

/-- C4 (amended): the query engine returns the first successful response
when some attempt at or below the configured maximum succeeds; when every
attempt fails it returns no response, only an error naming the target
domain, the server, and the last underlying error (the attempt count does
not appear in the message). -/
theorem query_first_success_or_exhausted (ex : Nat → Except String DnsMsg)
    (retries : Nat) (d s : String) :
    (∀ j r, 1 ≤ j → j ≤ retries → ex j = .ok r →
      (∀ k, 1 ≤ k → k < j → ∃ e, ex k = .error e) →
      query ex retries d s = .ok r) ∧
    (∀ f : Nat → String, 1 ≤ retries →
      (∀ k, 1 ≤ k → k ≤ retries → ex k = .error (f k)) →
      query ex retries d s =
        .error ("Too many retries looking up NS records for domain " ++ d ++
          " to server " ++ s ++ ", last error: " ++ f retries)) := by
  constructor
  · intro j r hj1 hj2 hok hprev
    exact queryFuel_first_ok ex d s retries 1 none j r hj1 (by omega) hok hprev
  · intro f h1 hall
    have h := queryFuel_all_fail ex d s f retries 1 none
      (fun k hk1 hk2 => hall k hk1 (by omega))
    rw [query, h, if_neg (by omega)]
    have h2 : 1 + retries - 1 = retries := by omega
    rw [h2]
    rfl

set_option maxRecDepth 8000 in
/-- C4 (counterexample): with 3 configured attempts all failing with
`"refused"`, the query engine returns the exhaustion error naming the
target, the server and the last error — but the attempt count 3 appears
nowhere in the message, against the claim that the error names it. -/
theorem query_error_lacks_attempt_count :
    query (fun _ => .error "refused") 3 "example.com." "a.gtld.net." =
      .error "Too many retries looking up NS records for domain example.com. to server a.gtld.net., last error: refused" ∧
    ¬ ("3".toList <:+:
      "Too many retries looking up NS records for domain example.com. to server a.gtld.net., last error: refused".toList) := by
  constructor
  · decide
  · decide

/-- C4 (witness): the amended theorem exercised at concrete inputs — an
exchange succeeding on the third of three attempts yields that response,
and one failing all three attempts yields the exhaustion error. -/
theorem query_first_success_or_exhausted_witness :
    query (fun k => if k = 3 then .ok ⟨0, [], []⟩ else .error "refused") 3
      "example.com." "a.gtld.net." = .ok ⟨0, [], []⟩ ∧
    query (fun _ => .error "refused") 3 "d." "s." =
      .error ("Too many retries looking up NS records for domain " ++ "d." ++
        " to server " ++ "s." ++ ", last error: " ++ "refused") := by
  constructor
  · exact (query_first_success_or_exhausted
      (fun k => if k = 3 then .ok ⟨0, [], []⟩ else .error "refused") 3
      "example.com." "a.gtld.net.").1 3 ⟨0, [], []⟩ (by omega) (by omega)
      (by decide)
      (fun k hk1 hk2 => ⟨"refused", by
        have hk : k ≠ 3 := by omega
        simp [hk]⟩)
  · exact (query_first_success_or_exhausted (fun _ => .error "refused") 3
      "d." "s.").2 (fun _ => "refused") (by omega)
      (fun k _ _ => rfl)

/-- A locate call whose parent zone is cached: the zone lookup succeeds,
the cached host is returned, and neither the cache nor the resolver-call
count changes. -/
theorem domainParent_hit (env : Env) (c : Cache) (d p v z : String)
    (zs : List String) (hp : parentOf d = p)
    (hz : env.lookupNS d = .ok (z :: zs)) (hc : cacheGet c p = some v) :
    domainParent env c d = (.ok ⟨p, v, z⟩, c, 0) := by
  simp only [domainParent, hp, hz, hc]

/-- A locate call on a cache miss: one parent lookup is performed and its
first host is stored in the cache. -/
theorem domainParent_miss (env : Env) (c : Cache) (d p z q : String)
    (zs qs : List String) (hp : parentOf d = p)
    (hz : env.lookupNS d = .ok (z :: zs)) (hc : cacheGet c p = none)
    (hq : env.lookupNS p = .ok (q :: qs)) :
    domainParent env c d = (.ok ⟨p, q, z⟩, cachePut c p q, 1) := by
  simp only [domainParent, hp, hz, hc, hq]

/-- C6: after one successful locate call for a domain with parent `p`, any
later sequential locate call for a domain with the same parent whose zone
lookup succeeds returns the very same cached parent name server, leaves the
cache unchanged, and performs zero parent-resolver calls; moreover the
cache holds that host, and if `p` was not cached before the first call then
that call performed exactly one parent-resolver call. -/
theorem domainParent_cache_idempotent (env : Env) (c : Cache)
    (d1 d2 p : String) (loc1 : LocateOk) (c1 : Cache) (k : Nat)
    (h1 : domainParent env c d1 = (.ok loc1, c1, k))
    (hp1 : parentOf d1 = p) (hp2 : parentOf d2 = p)
    (z : String) (zs : List String)
    (hz : env.lookupNS d2 = .ok (z :: zs)) :
    domainParent env c1 d2 = (.ok ⟨p, loc1.parentNS, z⟩, c1, 0) ∧
    cacheGet c1 p = some loc1.parentNS ∧
    (cacheGet c p = none → k = 1) := by
  rcases hL : env.lookupNS d1 with eL | zl
  · simp only [domainParent, hp1, hL] at h1
    simp at h1
  · rcases zl with _ | ⟨z1, zrest⟩
    · simp only [domainParent, hp1, hL] at h1
      simp at h1
    · rcases hC : cacheGet c p with _ | v
      · rcases hQ : env.lookupNS p with eQ | ql
        · simp only [domainParent, hp1, hL, hC, hQ] at h1
          simp at h1
        · rcases ql with _ | ⟨q, qrest⟩
          · simp only [domainParent, hp1, hL, hC, hQ] at h1
            simp at h1
          · simp only [domainParent, hp1, hL, hC, hQ] at h1
            injection h1 with hA hBC
            injection hBC with hB hk
            injection hA with hA0
            subst hA0
            subst hB
            subst hk
            have hstored : cacheGet (cachePut c p q) p = some q := by
              simp [cacheGet, cachePut]
            exact ⟨domainParent_hit env _ d2 p q z zs hp2 hz hstored,
              hstored, fun _ => rfl⟩
      · simp only [domainParent, hp1, hL, hC] at h1
        injection h1 with hA hBC
        injection hBC with hB hk
        injection hA with hA0
        subst hA0
        subst hB
        subst hk
        refine ⟨domainParent_hit env c d2 p v z zs hp2 hz hC, hC, ?_⟩
        intro hnone
        exact Option.noConfusion hnone

set_option maxRecDepth 4000 in
/-- C6 (witness): the idempotence theorem exercised on two concrete domains
sharing the parent `example.com.`: the second locate call returns the host
cached by the first, with the cache unchanged and zero parent lookups. -/
theorem domainParent_cache_idempotent_witness :
    domainParent envC6 [("example.com.", "p1.ns.")] "b.example.com." =
      (.ok ⟨"example.com.", "p1.ns.", "z2.ns."⟩,
        [("example.com.", "p1.ns.")], 0) ∧
    cacheGet [("example.com.", "p1.ns.")] "example.com." = some "p1.ns." ∧
    (cacheGet ([] : Cache) "example.com." = none → 1 = 1) :=
  domainParent_cache_idempotent envC6 [] "a.example.com." "b.example.com."
    "example.com." ⟨"example.com.", "p1.ns.", "z1.ns."⟩
    [("example.com.", "p1.ns.")] 1 (by decide) (by decide) (by decide)
    "z2.ns." [] (by decide)

/-- C10: whenever the underlying query yields a response with the success
response code, `queryNS` returns without error the set extracted from the
selected section; and if that section holds no NS-type records at all, the
returned set is the empty set — not a failure. -/
theorem queryNS_success_no_ns_empty (env : Env) (retries : Nat)
    (d s : String) (checkNS : Bool) (r : DnsMsg)
    (hq : query (env.exchange d s) retries d s = .ok r)
    (hrc : r.rcode = rcodeSuccess) :
    queryNS env retries d s checkNS =
      .ok (extractNS (if checkNS then r.ns else r.answer)) ∧
    ((∀ a ∈ (if checkNS then r.ns else r.answer), RR.isNS a = false) →
      queryNS env retries d s checkNS = .ok ∅) := by
  have h1 : queryNS env retries d s checkNS =
      .ok (extractNS (if checkNS then r.ns else r.answer)) := by
    simp only [queryNS, hq, hrc]
    simp
  exact ⟨h1, fun h => by rw [h1, extractNS_eq_empty _ h]⟩

/-- C10 (witness): a success-rcode response whose authority section holds a
single non-NS record yields the empty set with no error. -/
theorem queryNS_success_no_ns_empty_witness :
    queryNS envEmptyOk 3 "example.com." "gtld.ns." true = .ok ∅ :=
  (queryNS_success_no_ns_empty envEmptyOk 3 "example.com." "gtld.ns." true
    ⟨0, [RR.other], []⟩ (by decide) rfl).2 (by decide)

end NSAudit
